import Mathlib

/-!
Verification of the partitioned, paginated log-search logic of the `useLogs`
composable (`web/src/composables/useLogs.ts` of the openobserve web client).

The embedding below translates the relevant parts of that file into pure Lean
functions:

* `refreshPartitionPagination` / `buildPaginations` — the pagination-plan
  rebuild (source lines 672–772);
* `getQueryPartitions` — initial plan construction from the partition
  service's response (lines 626–670);
* `chartIntervalAndFormat` / `histogramAggsFor` — the histogram interval
  ladder inside `buildSearch` (lines 444–482);
* `setTrackTotalHits`, `updatePartitionTotals`, `applyResponse`,
  `applyFetchError`, `getPaginatedData` — the paginated query executor
  (lines 867–1066), with network fetches supplied as an explicit list of
  outcomes and JS mutation turned into explicit state passing;
* `getHistogramQueryData` — the histogram fetch (lines 1078–1126).

JS numbers are modelled as `Int` (all the quantities involved are integers in
the source: record counts, microsecond timestamps, sizes).  Record payloads
and aggregation payloads are opaque to the executor, so hits are modelled as
`List Int` (ids) and `aggs` as `Option Int` (`none` = the `aggs` field is
absent from the object).
-/

/-- One entry of `partitionDetail.paginations[page]`: the object literal
`{startTime, endTime, from, size}` pushed by `getQueryPartitions` and
`refreshPartitionPagination`.  `from` is a reserved word in Lean and is
rendered `fromPos`. -/
structure PageSlice where
  startTime : Int
  endTime : Int
  fromPos : Int
  size : Int
deriving Repr, DecidableEq

/-- `partitionDetail.paginations`: an array of logical pages, each an array of
slices. -/
abbrev Paginations := List (List PageSlice)

/-- JS array auto-extension `if (!paginations[n]) paginations[n] = [];`
(`n` never exceeds the length by more than one in the source, so the
extension appends empty pages). -/
def ensurePage (pags : Paginations) (n : Nat) : Paginations :=
  if n < pags.length then pags else pags ++ List.replicate (n + 1 - pags.length) []

/-- `paginations[n].push(s)` after ensuring the page exists. -/
def pushSlice (pags : Paginations) (n : Nat) (s : PageSlice) : Paginations :=
  (ensurePage pags n).set n ((ensurePage pags n).getD n [] ++ [s])

/-- Sum of the `size` fields of one logical page (the inner
`paginations[lastPage].forEach((item) => { lastPartitionSize += item.size })`
of the source). -/
def pageSizeSum (page : List PageSlice) : Int :=
  (page.map (·.size)).sum

/-- `lastPage = paginations.length - 1` followed by summing that page's
slice sizes. -/
def lastPageSize (pags : Paginations) : Int :=
  pageSizeSum (pags.getD (pags.length - 1) [])

/-- `Math.ceil(total / rowsPerPage)` as the number of inner-loop iterations.
For the values occurring in the source (`total ≥ -1`, `rowsPerPage > 0`) a
non-positive `total` yields `0` iterations (`Math.ceil(-1/250)` is `-0` and
the loop guard `totalPages > 0` fails), and a positive one the usual ceiling
division. -/
def totalPagesOf (total : Int) (rowsPerPage : Nat) : Nat :=
  if total ≤ 0 then 0 else (total.toNat + rowsPerPage - 1) / rowsPerPage

/-- The inner `for (let i = 0; i < totalPages; i++)` loop of
`refreshPartitionPagination` for one partition `item` with known positive
`total`.  `rem` is the number of remaining iterations (initially
`totalPages`), `i` the loop counter, then the mutable
`partitionFrom`, `pageNumber` and `paginations`.  The early
`return true` (which in JS only leaves the `forEach` callback, i.e. stops
slicing the current partition) is modelled by returning when
`paginations.length > currentPage + 10`. -/
def sliceLoop (item : Int × Int) (total : Int) (rowsPerPage currentPage totalPages : Nat) :
    Nat → Nat → Int → Nat → Paginations → Nat × Paginations
  | 0, _, _, pageNumber, pags => (pageNumber, pags)
  | rem + 1, i, partitionFrom, pageNumber, pags =>
    -- let recordSize = i === totalPages - 1 ? total - partitionFrom || rowsPerPage : rowsPerPage
    let recordSize0 : Int :=
      if i = totalPages - 1 then
        (if total - partitionFrom = 0 then (rowsPerPage : Int) else total - partitionFrom)
      else (rowsPerPage : Int)
    -- lastPartitionSize = 0; if (pageNumber > 0) { ... }
    let lastPartitionSize : Int := if pageNumber > 0 then lastPageSize pags else 0
    let recordSize : Int :=
      if pageNumber > 0 ∧ lastPartitionSize ≠ (rowsPerPage : Int) then
        (rowsPerPage : Int) - lastPartitionSize
      else recordSize0
    let pags := pushSlice pags pageNumber
      ⟨item.1, item.2, partitionFrom, min recordSize (rowsPerPage : Int)⟩
    let partitionFrom := partitionFrom + recordSize
    let pageNumber :=
      if recordSize = (rowsPerPage : Int) ∨
          lastPartitionSize + recordSize = (rowsPerPage : Int) then
        pageNumber + 1
      else pageNumber
    if pags.length > currentPage + 10 then (pageNumber, pags)
    else sliceLoop item total rowsPerPage currentPage totalPages rem (i + 1)
      partitionFrom pageNumber pags

/-- The body of the `partitions.forEach((item, index) => ...)` of
`refreshPartitionPagination`, for one partition and its recorded total.
A partition with `totalPages > 0` is cut by `sliceLoop`; any other total
(the `-1` sentinel, `0`, or a missing entry) takes the `else` branch, which
pushes a single provisional slice `{from: 0, size: recordSize}` and closes
the page. -/
def processPartition (rowsPerPage currentPage : Nat) (st : Nat × Paginations)
    (item : Int × Int) (total : Int) : Nat × Paginations :=
  let pageNumber := st.1
  let totalPages := totalPagesOf total rowsPerPage
  -- if (!partitionDetail.paginations[pageNumber]) partitionDetail.paginations[pageNumber] = []
  let pags := ensurePage st.2 pageNumber
  if totalPages > 0 then
    sliceLoop item total rowsPerPage currentPage totalPages totalPages 0 0 pageNumber pags
  else
    let lastPartitionSize := lastPageSize pags
    let recordSize : Int :=
      if lastPartitionSize ≠ (rowsPerPage : Int) then (rowsPerPage : Int) - lastPartitionSize
      else (rowsPerPage : Int)
    let pags := pushSlice pags pageNumber ⟨item.1, item.2, 0, recordSize⟩
    (pageNumber + 1, pags)

/-- The full rebuild of `partitionDetail.paginations` performed by
`refreshPartitionPagination` once its memoization guard has fired: walk the
partitions in order threading `pageNumber` and the plan.  A partition index
without a recorded total behaves like the `-1` sentinel (in JS the
`undefined` total routes to the same `else` branch). -/
def buildPaginations (partitions : List (Int × Int)) (partitionTotal : List Int)
    (rowsPerPage currentPage : Nat) : Paginations :=
  (partitions.enum.foldl
    (fun st ip => processPartition rowsPerPage currentPage st ip.2
      (partitionTotal.getD ip.1 (-1)))
    (0, ([] : Paginations))).2

/-- `refreshPartitionPagination` including its memoization guard
`if (partitionDetail.paginations.length <= currentPage + 3)`: when the guard
fails the stored plan is returned unchanged. -/
def refreshPartitionPagination (partitions : List (Int × Int)) (partitionTotal : List Int)
    (rowsPerPage currentPage : Nat) (paginations : Paginations) : Paginations :=
  if paginations.length ≤ currentPage + 3 then
    buildPaginations partitions partitionTotal rowsPerPage currentPage
  else paginations

/-- `searchObj.data.queryResults.partitionDetail`. -/
structure PartitionDetail where
  partitions : List (Int × Int)
  partitionTotal : List Int
  paginations : Paginations
deriving Repr, DecidableEq

/-- `getQueryPartitions` (lines 626–670), given the partition service's
response `{records, partitions}`: sorts the partitions ascending by start
time (`res.data.partitions.sort((a, b) => a[0] - b[0])`), stores one
provisional logical page per partition holding a single slice
`{startTime: item[0], endTime: item[1], from: 0, size: rowsPerPage}`, and
initializes every `partitionTotal` entry to the sentinel `-1`.  Returns the
value written to `searchObj.data.queryResults.total` (the reported record
count) together with the fresh `partitionDetail`. -/
def getQueryPartitions (records : Int) (resPartitions : List (Int × Int))
    (rowsPerPage : Nat) : Int × PartitionDetail :=
  let partitions := List.insertionSort (fun a b => a.1 ≤ b.1) resPartitions
  (records,
    { partitions := partitions
      partitionTotal := List.replicate partitions.length (-1)
      paginations :=
        partitions.map (fun item => [⟨item.1, item.2, 0, (rowsPerPage : Int)⟩]) })

/-!  Histogram interval selection (`buildSearch`, lines 444–482). -/

/-- The histogram interval ladder of `buildSearch`: a run of independent
`if` statements over `end_time - start_time`, each overwriting
`chartInterval` / `chartKeyFormat`, starting from the defaults
`"10 second"` / `"HH:mm:ss"` (lines 444 and 449). -/
def chartIntervalAndFormat (duration : Int) : String × String :=
  let r := ("10 second", "HH:mm:ss")
  let r := if duration ≥ 1000000 * 60 * 30 then ("15 second", "HH:mm:ss") else r
  let r := if duration ≥ 1000000 * 60 * 60 then ("30 second", "HH:mm:ss") else r
  let r := if duration ≥ 1000000 * 3600 * 2 then ("1 minute", "MM-DD HH:mm") else r
  let r := if duration ≥ 1000000 * 3600 * 6 then ("5 minute", "MM-DD HH:mm") else r
  let r := if duration ≥ 1000000 * 3600 * 24 then ("30 minute", "MM-DD HH:mm") else r
  let r := if duration ≥ 1000000 * 86400 * 7 then ("1 hour", "MM-DD HH:mm") else r
  let r := if duration ≥ 1000000 * 86400 * 30 then ("1 day", "YYYY-MM-DD") else r
  r

/-- The same selection written the way the specification describes it: the
largest satisfied threshold wins (descending first match).  Used to compare
the implementation against the spec's words. -/
def chartIntervalSpecSelect (duration : Int) : String × String :=
  if duration ≥ 1000000 * 86400 * 30 then ("1 day", "YYYY-MM-DD")
  else if duration ≥ 1000000 * 86400 * 7 then ("1 hour", "MM-DD HH:mm")
  else if duration ≥ 1000000 * 3600 * 24 then ("30 minute", "MM-DD HH:mm")
  else if duration ≥ 1000000 * 3600 * 6 then ("5 minute", "MM-DD HH:mm")
  else if duration ≥ 1000000 * 3600 * 2 then ("1 minute", "MM-DD HH:mm")
  else if duration ≥ 1000000 * 60 * 60 then ("30 second", "HH:mm:ss")
  else if duration ≥ 1000000 * 60 * 30 then ("15 second", "HH:mm:ss")
  else ("10 second", "HH:mm:ss")

/-- `store.state.zoConfig.timestamp_column`, modelled at its platform default
value. -/
def timestamp_column : String := "_timestamp"

/-- The `req.aggs.histogram` template of `buildSearch` (lines 422–426). -/
def histogramAggsTemplate : String :=
  "select histogram(" ++ timestamp_column ++
    ", '[INTERVAL]') AS zo_sql_key, count(*) AS zo_sql_num from query GROUP BY zo_sql_key ORDER BY zo_sql_key"

/-- Does `p` start the character list `s`? -/
def listStartsWith : List Char → List Char → Bool
  | [], _ => true
  | _ :: _, [] => false
  | p :: ps, c :: cs => p = c && listStartsWith ps cs

/-- JS `String.prototype.replaceAll` over the character list: replace every
leftmost, non-overlapping occurrence of `pattern` by `replacement`.  The
fuel argument (instantiated with the string length, enough for a non-empty
pattern) keeps the recursion structural. -/
def replaceAllAux (pattern replacement : List Char) : Nat → List Char → List Char
  | _, [] => []
  | 0, s => s
  | fuel + 1, c :: s =>
    if listStartsWith pattern (c :: s) then
      replacement ++ replaceAllAux pattern replacement fuel ((c :: s).drop pattern.length)
    else
      c :: replaceAllAux pattern replacement fuel s

/-- `s.replaceAll(pattern, replacement)` on strings. -/
def replaceAllString (s pattern replacement : String) : String :=
  ⟨replaceAllAux pattern.data replacement.data s.data.length s.data⟩

/-- `req.aggs.histogram.replaceAll("[INTERVAL]", chartInterval)`
(lines 479–482): the selected interval substituted verbatim into the
aggregation expression. -/
def histogramAggsFor (duration : Int) : String :=
  replaceAllString histogramAggsTemplate "[INTERVAL]" (chartIntervalAndFormat duration).1

/-!  The paginated query executor (`getPaginatedData`, lines 867–1066). -/

/-- The `query` object of the search request, restricted to the fields the
executor reads or writes.  `track_total_hits` models the *presence* of the
flag on the object (the source only ever assigns it `true`, and removes it
with `delete`). -/
structure QueryReqQuery where
  startTime : Int
  endTime : Int
  fromPos : Int
  size : Int
  track_total_hits : Bool
deriving Repr, DecidableEq

/-- `res.data` of a successful search response.  Hit payloads are opaque ids;
`aggs = none` models an absent `aggs` field. -/
structure SearchResponse where
  hits : List Int
  total : Int
  fromPos : Int
  size : Int
  scan_size : Int
  took : Int
  aggs : Option Int
deriving Repr, DecidableEq

/-- A rejected fetch: `hasResponse` is `err.response != undefined`,
`respError` is `err.response.data.error`, `code` is
`err?.response?.data.code` (`none` when absent), `message` the transport
error `err.message`. -/
structure ErrResponse where
  hasResponse : Bool
  respError : String
  code : Option Int
  message : String
deriving Repr, DecidableEq

/-- The slice of `searchObj` state that `getPaginatedData` and
`getHistogramQueryData` read or write.  `liveRefresh` stands for
`searchObj.meta.refreshInterval > 0 && route.name == "logs"`; `errorCode`
is `none` while unset.  UI-only post-processing (field extraction, grid
columns, histogram title, `functionError`) is not part of this state. -/
structure SearchState where
  partitionDetail : PartitionDetail
  currentPage : Nat
  rowsPerPage : Nat
  subpage : Nat
  hits : List Int
  total : Int
  qrFrom : Int
  qrSize : Int
  scan_size : Int
  took : Int
  aggs : Option Int
  errorMsg : String
  errorCode : Option Int
  loading : Bool
  loadingHistogram : Bool
  liveRefresh : Bool
deriving Repr, DecidableEq

/-- Lines 874–887: the `track_total_hits` decision made before each fetch.
The source indexes `partitionTotal` by `currentPage - 1`; a missing entry
(`undefined` in JS) satisfies neither `== -1` nor `> -1` and leaves the
request unchanged. -/
def setTrackTotalHits (st : SearchState) (q : QueryReqQuery) : QueryReqQuery :=
  match st.partitionDetail.partitionTotal.get? (st.currentPage - 1) with
  | some t =>
    if t = -1 then { q with track_total_hits := true }
    else if t > -1 ∧ q.track_total_hits then { q with track_total_hits := false }
    else q
  | none => q

/-- Lines 898–913: on a successful response, record `res.data.total` as the
total of every partition still at the `-1` sentinel whose start time equals
the request's `start_time`, refreshing the pagination plan after each such
write (the refresh keeps the plan unchanged unless its memoization guard
fires). -/
def updatePartitionTotals (reqStart resTotal : Int) (st : SearchState) : SearchState :=
  st.partitionDetail.partitions.enum.foldl
    (fun s ip =>
      if s.partitionDetail.partitionTotal.get? ip.1 = some (-1) ∧ reqStart = ip.2.1 then
        let pd := s.partitionDetail
        let pd := { pd with partitionTotal := pd.partitionTotal.set ip.1 resTotal }
        let pd := { pd with paginations :=
          (refreshPartitionPagination pd.partitions pd.partitionTotal s.rowsPerPage
            s.currentPage pd.paginations) }
        { s with partitionDetail := pd }
      else s)
    st

/-- Lines 938–990: how one successful response is folded into
`searchObj.data.queryResults`.  For `from > 0` the source *assigns*
`from`/`scan_size`/`took` and appends hits only when `appendResult` is set;
for `from == 0` in live-refresh mode (with hits already held) it assigns
them together with `aggs` and replaces the hits; otherwise it deletes
`res.data.total` unless the request carried `track_total_hits` and merges
the whole response object over the accumulated results
(`{...queryResults, ...res.data}` — a field absent from the response, such
as `aggs`, keeps its accumulated value). -/
def applyResponse (appendResult : Bool) (q : QueryReqQuery) (st : SearchState)
    (res : SearchResponse) : SearchState :=
  if res.fromPos > 0 then
    { st with qrFrom := res.fromPos, scan_size := res.scan_size, took := res.took,
              hits := if appendResult then st.hits ++ res.hits else res.hits }
  else if st.liveRefresh ∧ st.hits.length > 0 then
    { st with qrFrom := res.fromPos, scan_size := res.scan_size, took := res.took,
              aggs := res.aggs, hits := res.hits }
  else
    { st with hits := res.hits,
              total := if q.track_total_hits then res.total else st.total,
              qrFrom := res.fromPos, qrSize := res.size,
              scan_size := res.scan_size, took := res.took,
              aggs := if res.aggs.isSome then res.aggs else st.aggs }

/-- `logsErrorMessage` from `@/utils/common`.  Modelled from the spec: that
module is not among the provided sources; §6 of the specification describes
it as a static lookup from the backend's numeric error code to a localized
message key, with codes lacking an entry yielding the empty string (so the
raw error passes through).  The table itself is a parameter since its
entries are not specified. -/
def logsErrorMessage (table : List (Int × String)) (code : Option Int) : String :=
  match code with
  | some c => (((table.find? (fun e => e.1 = c)).map (·.2)).getD "")
  | none => ""

/-- The `.catch` handler of `getPaginatedData` (lines 1051–1065): clear the
loading flag, take the backend's `error` string (or the transport message
when there is no response), then overwrite it with the translated friendly
message when the error code is in the static table.  `tr` is the i18n
translation `t`. -/
def applyFetchError (table : List (Int × String)) (tr : String → String)
    (st : SearchState) (err : ErrResponse) : SearchState :=
  let st := { st with loading := false }
  let st := { st with errorMsg := if err.hasResponse then err.respError else err.message }
  let customMessage := logsErrorMessage table err.code
  let st := { st with errorCode := err.code }
  if customMessage ≠ "" then { st with errorMsg := tr customMessage } else st

/-- Lines 997–1012: load the next slice's bounds into the request object. -/
def sliceToQuery (q : QueryReqQuery) (s : PageSlice) : QueryReqQuery :=
  { q with startTime := s.startTime, endTime := s.endTime,
           fromPos := s.fromPos, size := s.size }

/-- `getPaginatedData` (lines 867–1066) with the network supplied as an
explicit list of fetch outcomes consumed in order.  Returns the final state
together with the requests actually issued.  The source recursion is bounded
here by `fuel` (each recursive call advances `subpage`, whose bound —
the current page's slice count — can itself change under plan refreshes).
The histogram side request it may fire at the end is modelled separately
(`getHistogramQueryData`); grid/field post-processing touches no state
modelled here. -/
def getPaginatedData (table : List (Int × String)) (tr : String → String) :
    Nat → QueryReqQuery → Bool → SearchState →
    List (Except ErrResponse SearchResponse) → SearchState × List QueryReqQuery
  | 0, _, _, st, _ => (st, [])
  | fuel + 1, q, appendResult, st, responses =>
    let q := setTrackTotalHits st q
    match responses with
    | [] => (st, [q])
    | Except.error e :: _ => (applyFetchError table tr st e, [q])
    | Except.ok res :: rest =>
      let st := updatePartitionTotals q.startTime res.total st
      let st := applyResponse appendResult q st res
      let page := st.partitionDetail.paginations.getD (st.currentPage - 1) []
      if st.subpage < page.length then
        let s := page.getD st.subpage ⟨0, 0, 0, 0⟩
        let q2 := sliceToQuery q s
        let st := { st with subpage := st.subpage + 1 }
        let r := getPaginatedData table tr fuel q2 true st rest
        ({ r.1 with loading := false }, q :: r.2)
      else
        ({ st with loading := false }, [q])

/-- `getHistogramQueryData` (lines 1078–1126): mark the histogram as
loading, force `size = 0` and `track_total_hits = true` on the request, and
issue it.  On success overwrite `queryResults.aggs` and `queryResults.total`
from the response and clear the flags; on failure map the error exactly as
the paginated fetch does, on the histogram loading flag.  Returns the
request as sent together with the new state. -/
def getHistogramQueryData (table : List (Int × String)) (tr : String → String)
    (q : QueryReqQuery) (st : SearchState)
    (outcome : Except ErrResponse SearchResponse) : QueryReqQuery × SearchState :=
  let st := { st with loadingHistogram := true }
  let q := { q with size := 0, track_total_hits := true }
  match outcome with
  | Except.ok res =>
    (q, { st with loading := false, errorMsg := "", aggs := res.aggs,
                  total := res.total, loadingHistogram := false })
  | Except.error e =>
    let st := { st with loadingHistogram := false }
    let st := { st with errorMsg := if e.hasResponse then e.respError else e.message }
    let customMessage := logsErrorMessage table e.code
    let st := { st with errorCode := e.code }
    (q, if customMessage ≠ "" then { st with errorMsg := tr customMessage } else st)

/-!  Concrete states used by the evaluation theorems below. -/

/-- An empty `partitionDetail`. -/
def pdEmpty : PartitionDetail :=
  { partitions := [], partitionTotal := [], paginations := [] }

/-- A baseline search state (fresh session, page 1, 250 rows per page). -/
def stBase : SearchState :=
  { partitionDetail := pdEmpty, currentPage := 1, rowsPerPage := 250, subpage := 1,
    hits := [], total := 0, qrFrom := 0, qrSize := 0, scan_size := 0, took := 0,
    aggs := none, errorMsg := "", errorCode := none, loading := true,
    loadingHistogram := false, liveRefresh := false }

/-- A baseline request without the `track_total_hits` flag. -/
def qDefault : QueryReqQuery :=
  { startTime := 0, endTime := 0, fromPos := 0, size := 250, track_total_hits := false }

/-- Partition detail after the first partition's total (500) has been
learned, the second still unknown, and the plan rebuilt while viewing
page 2. -/
def pdKnownFirst : PartitionDetail :=
  { partitions := [(0, 10), (20, 30)], partitionTotal := [500, -1],
    paginations := buildPaginations [(0, 10), (20, 30)] [500, -1] 250 2 }

/-- The search state for that scenario: the user is on logical page 2. -/
def stKnownFirst : SearchState :=
  { stBase with partitionDetail := pdKnownFirst, currentPage := 2 }

/-- Accumulated results holding one hit with running `scan_size = 10`,
`took = 7`. -/
def stAccum : SearchState := { stBase with hits := [1], scan_size := 10, took := 7 }

/-- A continuation response (`from = 5 > 0`). -/
def resCont : SearchResponse :=
  { hits := [2], total := 42, fromPos := 5, size := 1, scan_size := 5, took := 3,
    aggs := none }

/-- A first-contact response (`from = 0`) carrying an `aggs` payload. -/
def resFirst : SearchResponse :=
  { hits := [3], total := 42, fromPos := 0, size := 1, scan_size := 5, took := 3,
    aggs := some 9 }

/-- A representative static error table. -/
def tableSample : List (Int × String) := [(10001, "message.serverError")]

/-- A backend rejection whose numeric code has no table entry and whose
`error` string is empty. -/
def errUnmappedEmpty : ErrResponse :=
  { hasResponse := true, respError := "", code := some 99999,
    message := "Network Error" }

/-!  Helper lemmas shared by the claim theorems. -/

/-- What the `.catch` handler of `getPaginatedData` does to the state:
hits kept, loading cleared, the error message mapped through the static
table with the raw string as fallback. -/
theorem applyFetchError_spec (table : List (Int × String)) (tr : String → String)
    (st : SearchState) (e : ErrResponse) :
    (applyFetchError table tr st e).hits = st.hits ∧
    (applyFetchError table tr st e).loading = false ∧
    (applyFetchError table tr st e).errorMsg =
      (if logsErrorMessage table e.code ≠ "" then tr (logsErrorMessage table e.code)
       else if e.hasResponse then e.respError else e.message) := by
  unfold applyFetchError
  by_cases h : logsErrorMessage table e.code ≠ "" <;> simp [h]

/-!  Claim theorems. -/

/-- C1: the spec requires a rebuilt plan over fully known totals summing to
`N` to hold exactly `⌈N / R⌉` logical pages whose slice sizes sum to `R`
(last page: `N mod R`, or `R`).  Evaluating the rebuild at three
non-overlapping sorted partitions with known totals `[100, 100, 100]`
(`N = 300`) and `R = 250`: the code produces a single logical page holding
all 300 records, not two pages of 250 and 50. -/
theorem c1_page_sums_eval :
    refreshPartitionPagination [(0, 1), (2, 3), (4, 5)] [100, 100, 100] 250 1 [] =
      [[⟨0, 1, 0, 100⟩, ⟨2, 3, 0, 100⟩, ⟨4, 5, 0, 100⟩]] ∧
    (refreshPartitionPagination [(0, 1), (2, 3), (4, 5)] [100, 100, 100] 250 1 []).length
      = 1 := by
  decide

/-- C2: the spec requires every slice of a partition with known total `T` to
satisfy `from + size ≤ T`.  Evaluating the rebuild at known totals
`[250, 100]` with `R = 250`: the second page holds the slice
`{from: 0, size: 250}` on the partition whose total is `100`, overrunning it
by 150 records. -/
theorem c2_slice_overrun_eval :
    refreshPartitionPagination [(0, 10), (20, 30)] [250, 100] 250 1 [] =
      [[⟨0, 10, 0, 250⟩], [⟨20, 30, 0, 250⟩]] ∧
    (((refreshPartitionPagination [(0, 10), (20, 30)] [250, 100] 250 1 []).getD 1 []).getD
        0 ⟨0, 0, 0, 0⟩).fromPos +
      (((refreshPartitionPagination [(0, 10), (20, 30)] [250, 100] 250 1 []).getD 1
          []).getD 0 ⟨0, 0, 0, 0⟩).size > 100 := by
  decide

/-- C3: the spec ties `track_total_hits` to the partition the fetched slice
belongs to.  In the `pdKnownFirst` scenario the slice fetched for logical
page 2 is `{startTime: 0, from: 250, size: 250}` — it belongs to the first
partition, whose total (500) is already known — yet the code sets the flag,
because it consults `partitionTotal[currentPage - 1]`, the entry of the
*second* partition. -/
theorem c3_track_flag_eval :
    (pdKnownFirst.paginations.getD 1 []).getD 0 ⟨0, 0, 0, 0⟩ = ⟨0, 10, 250, 250⟩ ∧
    pdKnownFirst.partitions.getD 0 (0, 0) = (0, 10) ∧
    pdKnownFirst.partitionTotal.getD 0 0 = 500 ∧
    (setTrackTotalHits stKnownFirst qDefault).track_total_hits = true := by
  decide

/-- C4 counterexample: for a continuation response (`from = 5 > 0`) the
executor does not add `scan_size`/`took` to the running totals
(`10 + 5 = 15`, `7 + 3 = 10`): it overwrites them with the response's
values. -/
theorem c4_counterexample :
    ¬ ((applyResponse true qDefault stAccum resCont).scan_size =
          stAccum.scan_size + resCont.scan_size ∧
        (applyResponse true qDefault stAccum resCont).took =
          stAccum.took + resCont.took) := by
  decide

/-- C4 (amended): for a response with `from > 0` the executor *replaces*
`from`, `scan_size` and `took` with the response's values and appends the
hits exactly when the `appendResult` flag is set (true for intra-page
continuation fetches), replacing them otherwise; for a response with
`from = 0` outside live-refresh mode it merges the response wholesale —
hits, `from`, `size`, `scan_size`, `took` replaced, `total` replaced only
when the request carried `track_total_hits`, `aggs` replaced only when the
response carries one. -/
theorem c4_response_folding (appendResult : Bool) (q : QueryReqQuery)
    (st : SearchState) (res : SearchResponse) :
    (res.fromPos > 0 →
      applyResponse appendResult q st res =
        { st with qrFrom := res.fromPos, scan_size := res.scan_size, took := res.took,
                  hits := if appendResult then st.hits ++ res.hits else res.hits }) ∧
    (res.fromPos = 0 → st.liveRefresh = false →
      applyResponse appendResult q st res =
        { st with hits := res.hits,
                  total := if q.track_total_hits then res.total else st.total,
                  qrFrom := res.fromPos, qrSize := res.size,
                  scan_size := res.scan_size, took := res.took,
                  aggs := if res.aggs.isSome then res.aggs else st.aggs }) := by
  constructor
  · intro h
    simp [applyResponse, h]
  · intro h hl
    simp [applyResponse, h, hl]

/-- Witness for `c4_response_folding` at concrete inputs: a continuation
response appended to `stAccum`, and a first-contact response merged into
it. -/
theorem c4_response_folding_witness :
    applyResponse true qDefault stAccum resCont =
      { stAccum with qrFrom := 5, scan_size := 5, took := 3, hits := [1, 2] } ∧
    applyResponse false qDefault stAccum resFirst =
      { stAccum with hits := [3], total := stAccum.total, qrFrom := 0, qrSize := 1,
                     scan_size := 5, took := 3, aggs := some 9 } :=
  ⟨(c4_response_folding true qDefault stAccum resCont).1 (by decide),
   (c4_response_folding false qDefault stAccum resFirst).2 (by decide) (by decide)⟩

set_option maxRecDepth 8000 in
/-- C5: the interval ladder of `buildSearch` picks the largest satisfied
threshold of the table (evaluating the thresholds in ascending order with
each match overwriting the previous is the same function as descending
first-match), and the selected interval string is substituted verbatim into
the histogram aggregation expression. -/
theorem c5_interval_ladder (d : Int) :
    chartIntervalAndFormat d = chartIntervalSpecSelect d ∧
    histogramAggsFor d =
      "select histogram(_timestamp, '" ++ (chartIntervalAndFormat d).1 ++
        "') AS zo_sql_key, count(*) AS zo_sql_num from query GROUP BY zo_sql_key ORDER BY zo_sql_key" := by
  constructor
  · rfl
  · simp only [histogramAggsFor, chartIntervalAndFormat, histogramAggsTemplate,
      timestamp_column]
    split_ifs <;> rfl

/-- C6 counterexample: one microsecond below the 30-minute threshold the
selected interval is `"10 second"`, not `"15 second"` as the claim states. -/
theorem c6_counterexample :
    ¬ ((chartIntervalAndFormat (1800000000 - 1)).1 = "15 second") := by
  decide

/-- C6 (amended): at the claimed sample durations the selection yields
`"10 second"` (29:59.999999 — below every threshold), `"15 second"`
(exactly 30 minutes), and `"1 minute"` (just past 2 hours). -/
theorem c6_interval_values :
    (chartIntervalAndFormat 1799999999).1 = "10 second" ∧
    (chartIntervalAndFormat 1800000000).1 = "15 second" ∧
    (chartIntervalAndFormat 7200000001).1 = "1 minute" := by
  decide

/-- C7: the spec requires a partition with known total `0` to contribute no
slice.  Evaluating the rebuild at a single partition with total `0`: the
code emits the provisional slice `{from: 0, size: 250}` for it (the
`totalPages > 0` test routes `0` into the unknown-total branch), whereas
the plan built with the partition removed is empty. -/
theorem c7_zero_total_eval :
    refreshPartitionPagination [(0, 1)] [0] 250 1 [] = [[⟨0, 1, 0, 250⟩]] ∧
    refreshPartitionPagination [] [] 250 1 [] = [] := by
  decide

/-- C8 counterexample: a fetch failure whose backend error string is empty
and whose code has no table entry leaves the error message field empty —
the claim's "non-empty" does not hold. -/
theorem c8_counterexample :
    (getPaginatedData tableSample (fun s => s) 1 qDefault false stBase
        [Except.error errUnmappedEmpty]).1.errorMsg = "" := by
  decide

/-- C8 (amended): whenever the executor meets a failed fetch it stops — the
run ends at the `.catch` state having issued exactly the one failing
request — with the accumulated hits untouched, the loading flag cleared,
and the error message field set to the translated friendly message when the
backend's code is in the static table and otherwise to the raw backend
error string (or the transport message when there is no response); that raw
string may be empty. -/
theorem c8_fetch_failure (table : List (Int × String)) (tr : String → String)
    (fuel : Nat) (q : QueryReqQuery) (appendResult : Bool) (st : SearchState)
    (e : ErrResponse) (rest : List (Except ErrResponse SearchResponse)) :
    getPaginatedData table tr (fuel + 1) q appendResult st (Except.error e :: rest) =
      (applyFetchError table tr st e, [setTrackTotalHits st q]) ∧
    (applyFetchError table tr st e).hits = st.hits ∧
    (applyFetchError table tr st e).loading = false ∧
    (applyFetchError table tr st e).errorMsg =
      (if logsErrorMessage table e.code ≠ "" then tr (logsErrorMessage table e.code)
       else if e.hasResponse then e.respError else e.message) :=
  ⟨rfl, applyFetchError_spec table tr st e⟩

/-- C9: after `getQueryPartitions` the stored partition list is the
service's list sorted ascending by start time, the initial plan holds one
logical page per partition consisting of the single provisional slice
`{from: 0, size: rowsPerPage}` over the partition's span, every
`partitionTotal` entry is the sentinel `-1`, and `queryResults.total` is
the reported record count. -/
theorem c9_initial_plan (records : Int) (resPartitions : List (Int × Int))
    (rowsPerPage : Nat) :
    (getQueryPartitions records resPartitions rowsPerPage).1 = records ∧
    List.Sorted (fun a b : Int × Int => a.1 ≤ b.1)
      (getQueryPartitions records resPartitions rowsPerPage).2.partitions ∧
    ((getQueryPartitions records resPartitions rowsPerPage).2.partitions).Perm
      resPartitions ∧
    (getQueryPartitions records resPartitions rowsPerPage).2.partitionTotal =
      List.replicate
        (getQueryPartitions records resPartitions rowsPerPage).2.partitions.length
        (-1) ∧
    (getQueryPartitions records resPartitions rowsPerPage).2.paginations =
      (getQueryPartitions records resPartitions rowsPerPage).2.partitions.map
        (fun item => [⟨item.1, item.2, 0, (rowsPerPage : Int)⟩]) := by
  refine ⟨rfl, ?_, ?_, rfl, rfl⟩
  · haveI : IsTotal (Int × Int) (fun a b => a.1 ≤ b.1) :=
      ⟨fun a b => Int.le_total a.1 b.1⟩
    haveI : IsTrans (Int × Int) (fun a b => a.1 ≤ b.1) :=
      ⟨fun _ _ _ hab hbc => le_trans hab hbc⟩
    exact List.sorted_insertionSort _ _
  · exact List.perm_insertionSort _ _

/-- C10: every histogram fetch is sent with `size = 0` and
`track_total_hits = true`, and a successful one overwrites
`queryResults.aggs` and `queryResults.total` with the response's values. -/
theorem c10_histogram_fetch (table : List (Int × String)) (tr : String → String)
    (q : QueryReqQuery) (st : SearchState)
    (outcome : Except ErrResponse SearchResponse) (res : SearchResponse) :
    (getHistogramQueryData table tr q st outcome).1.size = 0 ∧
    (getHistogramQueryData table tr q st outcome).1.track_total_hits = true ∧
    (getHistogramQueryData table tr q st (Except.ok res)).2.aggs = res.aggs ∧
    (getHistogramQueryData table tr q st (Except.ok res)).2.total = res.total := by
  refine ⟨?_, ?_, rfl, rfl⟩
  · cases outcome <;> rfl
  · cases outcome <;> rfl
